import Mathlib

/-!
Verification of the WorkWeRoBot message-dispatch core (`workwerobot/robot.py`),
the picture-event normalizer (`workwerobot/messages/events.py`) and the bottle
GET handshake view (`workwerobot/contrib/bottle.py`), as a shallow embedding.

Python dynamic values are modelled as follows:
* a message is a record with its `type` tag, an optional `source`
  (`hasattr(message, "source")` is `source.isSome`) and a `content` string;
* a handler (user callable) is a function from its positional argument list
  to a call outcome: it either raises, or returns a value (modelled as
  `Option String`; `none` is a falsy return such as `None` or `""`) together
  with the state of the session object after the call (handlers may mutate
  the session in place);
* a session is a value of an arbitrary type `σ`; the variable `session`
  inside `get_reply` is `Option σ` (`none` is Python `None`);
* session storage (`session_storage[id]` / `session_storage[id] = session`)
  is modelled as a total map `String → σ` for reads; the dispatch result
  records the trace of reads and writes so that read/write-count claims can
  be stated;
* raised exceptions that escape a modelled function are an `Except` error
  (`PyErr`).
-/

namespace WorkWeRoBot

/-- Python exception kinds that the modelled code can raise. -/
inductive PyErr where
  | keyError
  | indexError
  | attributeError
  deriving Repr, DecidableEq

/-- A normalized WeRoBot message, as consumed by `BaseRoBot.get_reply`:
`type` is the `message.type` tag, `source` is `message.source` when the
attribute exists (`none` models a message without a `source` attribute),
`content` is the text content used by filter handlers. -/
structure Message where
  type : String
  source : Option String
  content : String
  deriving Repr, DecidableEq

/-- A positional argument passed to a handler: `get_reply` builds the list
`[message, session][:args_count]`. -/
inductive Arg (σ : Type) where
  | message (m : Message)
  | session (s : Option σ)

/-- Outcome of calling a handler: the call either raises an exception, or
returns a reply value (`none` = falsy, e.g. `None` or `""`) with the state of
the session object after the call (a handler that received the session may
have mutated it in place). -/
inductive CallResult (σ : Type) where
  | raise
  | ret (reply : Option String) (sess : Option σ)

/-- A Python callable as seen by the registration code: its behaviour on a
positional argument list, and `len(signature(func).parameters)` - the
declared parameter count inspected at registration time. -/
structure PyFunc (σ : Type) where
  run : List (Arg σ) → CallResult σ
  paramCount : Nat

/-- An entry of a handler list: the `(func, args_count)` pair stored by
`BaseRoBot.add_handler`. -/
structure HandlerEntry (σ : Type) where
  run : List (Arg σ) → CallResult σ
  argsCount : Nat

/-- `BaseRoBot.message_types` (robot.py): the fixed list of message types the
constructor creates handler lists for. -/
def message_types : List String :=
  [ "subscribe_event", "unsubscribe_event", "click_event", "view_event",
    "scancode_waitmsg_event", "scancode_push_event", "pic_sysphoto_event",
    "pic_photo_or_album_event", "pic_weixin_event", "location_select_event",
    "LOCATION_event", "unknown_event", "text", "image", "link", "location",
    "voice", "unknown", "video" ]

/-- The `_handlers` dict: an ordered association list from a type key to its
handler list (Python dict keys are unique; insertion order is kept). -/
abbrev HandlerDict (σ : Type) := List (String × List (HandlerEntry σ))

/-- `self._handlers = {k: [] for k in self.message_types}` followed by
`self._handlers['all'] = []` (robot.py `__init__`). -/
def initHandlers (σ : Type) : HandlerDict σ :=
  message_types.map (fun t => (t, [])) ++ [("all", ([] : List (HandlerEntry σ)))]

/-- Dict read `d[k]` / `d.get(k)`: `none` models a missing key. -/
def dictGet (d : HandlerDict σ) (k : String) : Option (List (HandlerEntry σ)) :=
  (d.find? (fun p => p.1 == k)).map (fun p => p.2)

/-- The key list of the `_handlers` dict. -/
def dictKeys (d : HandlerDict σ) : List String :=
  d.map (fun p => p.1)

/-- `self._handlers[type].append(entry)`: in-place append to the list stored
under an existing key (keys are never created by this operation). -/
def dictAppend (d : HandlerDict σ) (k : String) (e : HandlerEntry σ) : HandlerDict σ :=
  d.map (fun p => if p.1 == k then (p.1, p.2 ++ [e]) else p)

/-- `BaseRoBot.add_handler(func, type)` (robot.py): the callable check always
passes for a `PyFunc`; `self._handlers[type]` raises `KeyError` when `type`
is not a key; otherwise `(func, len(signature(func).parameters))` is appended
to that type's list. -/
def add_handler (f : PyFunc σ) (type : String) (d : HandlerDict σ) :
    Except PyErr (HandlerDict σ) :=
  match dictGet d type with
  | none => .error .keyError
  | some _ => .ok (dictAppend d type ⟨f.run, f.paramCount⟩)

/-- `BaseRoBot.get_handlers(type)` (robot.py):
`self._handlers.get(type, []) + self._handlers['all']`. The `'all'` key is
always present after `__init__`, so the missing-key default is harmless. -/
def get_handlers (d : HandlerDict σ) (type : String) : List (HandlerEntry σ) :=
  (dictGet d type).getD [] ++ (dictGet d "all").getD []

/-- The handler call `handler(*args)` with `args = [message, session][:args_count]`
performed by the dispatch loop of `get_reply`. -/
def invoke (e : HandlerEntry σ) (m : Message) (s : Option σ) : CallResult σ :=
  e.run (([Arg.message m, Arg.session s]).take e.argsCount)

/-- Result of running the `for handler, args_count in handlers:` loop of
`get_reply`, with an execution trace: `reply` is the value returned from the
loop (`none` when the loop produced no reply), `writes` is the ordered list
of session values stored by `session_storage[id] = session`, `raised` records
whether a handler raised (the surrounding `try`/`except` catches it, logs it
and falls out of `get_reply`), `calls` counts how many handlers were invoked,
and `finalSession` is the state of the `session` variable afterwards. -/
structure LoopResult (σ : Type) where
  reply : Option String
  writes : List (Option σ)
  raised : Bool
  calls : Nat
  finalSession : Option σ
  deriving Repr

/-- The dispatch loop of `BaseRoBot.get_reply` (robot.py): for each
`(handler, args_count)` entry, call `handler(*[message, session][:args_count])`;
if the handler raises, the `try`/`except` around the whole loop catches the
exception, logs it and the loop stops with no reply; otherwise write the
session back when `session_storage and id` is truthy (`hasWrite`), and if the
returned value is truthy, return `process_function_reply(reply, message)`
(`proc reply message`) at once. `proc` models `process_function_reply` from
the `replies` module, which only post-processes the returned value. -/
def runLoop (proc : String → Message → String) (m : Message) (hasWrite : Bool) :
    List (HandlerEntry σ) → Option σ → LoopResult σ
  | [], s => ⟨none, [], false, 0, s⟩
  | e :: rest, s =>
    match invoke e m s with
    | .raise => ⟨none, [], true, 1, s⟩
    | .ret rep s' =>
      let ws : List (Option σ) := if hasWrite then [s'] else []
      match rep with
      | some rv => ⟨some (proc rv m), ws, false, 1, s'⟩
      | none =>
        let r := runLoop proc m hasWrite rest s'
        ⟨r.reply, ws ++ r.writes, r.raised, r.calls + 1, r.finalSession⟩

/-- The state of a `BaseRoBot` instance used by `get_reply` and
`get_encrypted_reply`: the `_handlers` dict, the session storage
(`none` models disabled storage, i.e. a falsy `self.session_storage`),
the `use_encryption` attribute (`none` models the attribute being unset -
it is assigned, to `True`, only inside the first access to the `crypto`
cached property), and the three collaborator functions
`process_function_reply`, `crypto.encrypt_message` and `Reply.render`,
which live in repository modules outside the dispatch core and are kept
abstract as fields. -/
structure Robot (σ : Type) where
  handlers : HandlerDict σ
  sessionStorage : Option (String → σ)
  useEncryption : Option Bool
  procReply : String → Message → String
  encryptMessage : String → String
  renderReply : String → String

/-- The `session` variable of `get_reply` just before the loop: it is read
from storage iff storage is configured and the message has a `source`
attribute. -/
def initialSession (r : Robot σ) (m : Message) : Option σ :=
  match r.sessionStorage, m.source with
  | some store, some src => some (store src)
  | _, _ => none

/-- The condition `session_storage and id` guarding the storage write inside
the loop: `id = to_binary(message.source)` is truthy iff the source string is
non-empty (`to_binary` of the empty string is the falsy `b""`). -/
def hasWriteFlag (r : Robot σ) (m : Message) : Bool :=
  match r.sessionStorage, m.source with
  | some _, some src => !src.isEmpty
  | _, _ => false

/-- Result of one `get_reply` call, with its storage-access trace. -/
structure DispatchResult (σ : Type) where
  reply : Option String
  reads : Nat
  writes : List (Option σ)
  raised : Bool
  calls : Nat
  deriving Repr

/-- `BaseRoBot.get_reply(message)` (robot.py), with an explicit trace of
storage accesses: when storage is configured and the message has a `source`,
`session = session_storage[to_binary(message.source)]` is read once; then the
dispatch loop runs over `get_handlers(message.type)`. The returned `reply` is
`none` when `get_reply` returns `None` (no handler answered, or a handler
raised and the `except` branch logged it). -/
def get_reply (r : Robot σ) (m : Message) : DispatchResult σ :=
  match r.sessionStorage, m.source with
  | some store, some src =>
    let l := runLoop r.procReply m (!src.isEmpty)
      (get_handlers r.handlers m.type) (some (store src))
    ⟨l.reply, 1, l.writes, l.raised, l.calls⟩
  | _, _ =>
    let l := runLoop r.procReply m false (get_handlers r.handlers m.type) none
    ⟨l.reply, 0, l.writes, l.raised, l.calls⟩

/-- `BaseRoBot.get_encrypted_reply(message)` (robot.py): when `get_reply`
returned a falsy reply the warning is logged and `''` is returned; otherwise
`self.use_encryption` is read - if the attribute was never assigned (the
`crypto` property was never accessed) this raises `AttributeError`; when it
is `True` the reply is encrypted, otherwise rendered. -/
def get_encrypted_reply (r : Robot σ) (m : Message) : Except PyErr String :=
  match (get_reply r m).reply with
  | none => .ok ""
  | some rep =>
    match r.useEncryption with
    | none => .error .attributeError
    | some true => .ok (r.encryptMessage rep)
    | some false => .ok (r.renderReply rep)

/-! ### Filter registration (`BaseRoBot.add_filter`, robot.py) -/

/-- An opaque regex match object, forwarded by filter adapters to the
wrapped handler. -/
abbrev MatchObj := String

/-- A positional argument of a wrapped filter handler: `add_filter`
builds `[message, session, _check_result][:argc]`, where the third element
is `None` for an exact-string rule and the match object for a pattern
rule. -/
inductive FilterArg (σ : Type) where
  | message (m : Message)
  | session (s : Option σ)
  | matchResult (mo : Option MatchObj)

/-- The value of `_check_result = _check_content(message)` inside the filter
adapter: `falsy` is `False` or `None` (the rule did not match), `boolTrue` is
the `True` an exact-string comparison produces, `matched mo` is a truthy
match object produced by a pattern rule. -/
inductive CheckResult where
  | falsy
  | boolTrue
  | matched (mo : MatchObj)
  deriving Repr, DecidableEq

/-- A filter rule, as accepted by `add_filter`: a string (`six.string_types`)
or a compiled pattern (`is_regex`), the latter modelled by its `.match`
method, `none` meaning no match. -/
inductive Rule where
  | str (s : String)
  | regex (pat : String → Option MatchObj)

/-- `_check_content` for an exact-string rule (robot.py `add_filter`):
`message.content == target_content`, where `target_content` is the rule
string already normalized by `to_text`; the result is a `bool`. -/
def checkContentStr (target : String) (m : Message) : CheckResult :=
  if m.content == target then .boolTrue else .falsy

/-- `_check_content` for a pattern rule (robot.py `add_filter`):
`target_content.match(message.content)` - a match object or `None`. -/
def checkContentRegex (pat : String → Option MatchObj) (m : Message) : CheckResult :=
  match pat m.content with
  | some mo => .matched mo
  | none => .falsy

/-- `_check_content` for a rule, after the `to_text` normalization of a
string rule. `toText` models `workwerobot.utils.to_text`, the text
normalization applied to the rule string at registration time. -/
def ruleCheck (toText : String → String) : Rule → Message → CheckResult
  | .str s => checkContentStr (toText s)
  | .regex p => checkContentRegex p

/-- The body of the generated handler `_f(message, session=None)` registered
by `add_filter` (robot.py): evaluate `_check_content(message)`; when falsy
return `None` without calling the wrapped handler; when truthy, replace a
`bool` result by `None` and call
`func(*[message, session, _check_result][:argc])`, where `argc` is the
wrapped handler's declared parameter count. The wrapped handler `func` is
modelled by its behaviour on the positional argument list. -/
def filterF (check : Message → CheckResult)
    (func : List (FilterArg σ) → Option String) (argc : Nat)
    (message : Message) (session : Option σ) : Option String :=
  match check message with
  | .falsy => none
  | .boolTrue =>
    func (([FilterArg.message message, FilterArg.session session,
      FilterArg.matchResult none]).take argc)
  | .matched mo =>
    func (([FilterArg.message message, FilterArg.session session,
      FilterArg.matchResult (some mo)]).take argc)

/-- The wrapped user handler of a filter registration: its behaviour on a
positional argument list and its declared parameter count `argc`. -/
structure FilterFunc (σ : Type) where
  run : List (FilterArg σ) → Option String
  paramCount : Nat

/-- The `HandlerEntry` that `@self.text` creates for the generated
`_f(message, session=None)`: `_f` declares two parameters, so it is stored
with `args_count = 2` and receives `(message, session)`. A raising wrapped
handler is outside this model (`_f` then raises too); the entry returns
`_f`'s value and leaves the session object as given. -/
def mkFilterEntry (toText : String → String) (r : Rule) (f : FilterFunc σ) :
    HandlerEntry σ :=
  { run := fun args =>
      match args with
      | [Arg.message m, Arg.session s] =>
        .ret (filterF (ruleCheck toText r) f.run f.paramCount m s) s
      | _ => .raise
    argsCount := 2 }

/-- The single-rule branch of `BaseRoBot.add_filter` (robot.py), acting on
the `_handlers` dict: build `_check_content` from the rule (normalizing a
string rule with `to_text`) and register the generated
`_f(message, session=None)` under the `text` type via `@self.text`, i.e.
`add_handler(_f, type='text')` - a `KeyError` if the `text` key were absent,
otherwise an append to the `text` list. The callable and list checks of
`add_filter` always pass for a `FilterFunc` and a `List Rule`. -/
def addFilterSingle (toText : String → String) (f : FilterFunc σ) (r : Rule)
    (d : HandlerDict σ) : Except PyErr (HandlerDict σ) :=
  match dictGet d "text" with
  | none => .error .keyError
  | some _ => .ok (dictAppend d "text" (mkFilterEntry toText r f))

/-- `BaseRoBot.add_filter(func, rules)` on a rule list: an empty list raises
`IndexError` at `rules[0]`; a list of length > 1 runs
`for x in rules: self.add_filter(func, [x])`, i.e. a sequence of single-rule
registrations (each `add_filter toText f [x]` unfolds to
`addFilterSingle toText f x`); a singleton registers its rule. -/
def add_filter (toText : String → String) (f : FilterFunc σ) :
    List Rule → HandlerDict σ → Except PyErr (HandlerDict σ)
  | [], _ => .error .indexError
  | [r], d => addFilterSingle toText f r d
  | r :: rest, d => do
    let d' ← addFilterSingle toText f r d
    add_filter toText f rest d'

/-! ### Picture-selection events (`BasePicEvent.__init__`, messages/events.py) -/

/-- The `item` entry of `SendPicsInfo.PicList` as the XML parser produces it:
a single nested mapping when one `<item>` element is present, a list of
mappings when several are; each mapping carries a `PicMd5Sum`. -/
inductive PicListItem where
  | one (picMd5Sum : String)
  | many (items : List String)
  deriving Repr, DecidableEq

/-- The `SendPicsInfo` payload of a picture-selection event: the reported
`Count` and the `PicList` `item` entry. -/
structure SendPicsInfo where
  count : Int
  item : PicListItem
  deriving Repr, DecidableEq

/-- An element of `self.pic_list`: the dict `{'pic_md5_sum': ...}` appended
by `BasePicEvent.__init__`. -/
structure PicRecord where
  pic_md5_sum : String
  deriving Repr, DecidableEq

/-- The `pic_list` construction of `BasePicEvent.__init__`
(messages/events.py): when `self.count > 1`, iterate over
`message['SendPicsInfo']['PicList'].pop('item')` appending
`{'pic_md5_sum': item['PicMd5Sum']}` per item; otherwise treat the popped
`item` as a single mapping and append one record. `none` models the
`TypeError` Python raises when the shape does not match the count branch
(iterating a single mapping's keys, or indexing a list with a string). -/
def basePicEventPicList (info : SendPicsInfo) : Option (List PicRecord) :=
  if info.count > 1 then
    match info.item with
    | .many items => some (items.map (fun md5 => ⟨md5⟩))
    | .one _ => none
  else
    match info.item with
    | .one md5 => some [⟨md5⟩]
    | .many _ => none

/-! ### The bottle GET handshake view (`werobot_view`, contrib/bottle.py) -/

/-- `html.escape` of one character, `quote=True` (Python stdlib `html`):
`&`, `<`, `>`, `"` and the single quote become entity references. -/
def escapeChar (c : Char) : String :=
  if c = '&' then "&amp;"
  else if c = '<' then "&lt;"
  else if c = '>' then "&gt;"
  else if c = '"' then "&quot;"
  else if c = '\'' then "&#x27;"
  else String.singleton c

/-- `html.escape(s, quote=True)` (Python stdlib): character-wise entity
escaping; the sequential `str.replace` chain Python performs is equivalent
to this single pass because no replacement output contains a character that
a later replacement rewrites. -/
def htmlEscape (s : String) : String :=
  String.join (s.toList.map escapeChar)

/-- The query parameters of the GET handshake request, as read from
`request.query` by `werobot_view` (contrib/bottle.py); bottle returns `''`
for an absent parameter. -/
structure GetQuery where
  timestamp : String
  nonce : String
  echostr : String
  msgSignature : String
  deriving Repr, DecidableEq

/-- The collaborators `werobot_view` calls on the robot for a GET request:
`robot.check_signature(timestamp, nonce, echostr, signature)` (which
delegates to the SHA-1 verifier of `workwerobot.utils` - kept abstract),
`robot.crypto.decrypt_message(timestamp, nonce, msg_signature, encrypt_msg)`
(the crypto module - kept abstract), and the configurable
`robot.make_error_page` error-page producer. -/
structure ViewRobot where
  checkSig : String → String → String → String → Bool
  decryptMessage : String → String → String → String → String
  makeErrorPage : String → String

/-- The value a bottle view returns: an `HTTPResponse(status, body)` or a
plain string body (status 200). -/
inductive ViewResult where
  | httpResponse (status : Nat) (body : String)
  | plain (body : String)
  deriving Repr, DecidableEq

/-- The GET branch of `werobot_view` (contrib/bottle.py): first
`request.query.echostr = unquote(request.query.echostr)` (URL
percent-decoding, `urllib.parse.unquote`, kept abstract as `unquote`); then
`robot.check_signature(timestamp, nonce, echostr, msg_signature)` - on
failure return `HTTPResponse(status=403, body=robot.make_error_page(html.escape(request.url)))`,
on success return `robot.crypto.decrypt_message(timestamp, nonce,
msg_signature, echostr)`. -/
def werobotViewGet (r : ViewRobot) (unquote : String → String)
    (q : GetQuery) (url : String) : ViewResult :=
  let echostr := unquote q.echostr
  if r.checkSig q.timestamp q.nonce echostr q.msgSignature then
    .plain (r.decryptMessage q.timestamp q.nonce q.msgSignature echostr)
  else
    .httpResponse 403 (r.makeErrorPage (htmlEscape url))

/-! ### Concrete instances used by counterexamples and witnesses -/

/-- `session` is read from storage exactly when storage is configured and the
message has a `source` attribute. -/
def readCount (r : Robot σ) (m : Message) : Nat :=
  match r.sessionStorage, m.source with
  | some _, some _ => 1
  | _, _ => 0

/-- A two-parameter handler that increments a `Nat`-valued session and
returns `None` (a session-mutating handler with no reply). -/
def sessionIncEntry : HandlerEntry Nat :=
  ⟨fun args =>
    match args with
    | [Arg.message _, Arg.session (some n)] => .ret none (some (n + 1))
    | _ => .ret none none, 2⟩

/-- A text message from sender `u1` with content `hi`. -/
def c2Msg : Message := ⟨"text", some "u1", "hi"⟩

/-- A robot with session storage and two `text` handlers, both mutating the
session and returning `None`. -/
def c2RobotTwo : Robot Nat :=
  { handlers :=
      dictAppend (dictAppend (initHandlers Nat) "text" sessionIncEntry)
        "text" sessionIncEntry
    sessionStorage := some (fun _ => 0)
    useEncryption := none
    procReply := fun s _ => s
    encryptMessage := fun s => s
    renderReply := fun s => s }

/-- A robot with session storage and no handlers at all. -/
def c2RobotZero : Robot Nat :=
  { handlers := initHandlers Nat
    sessionStorage := some (fun _ => 0)
    useEncryption := none
    procReply := fun s _ => s
    encryptMessage := fun s => s
    renderReply := fun s => s }

/-- A one-parameter handler entry that returns the non-empty reply `"C"`. -/
def answerCEntry : HandlerEntry Unit := ⟨fun _ => .ret (some "C") none, 1⟩

/-- A handler entry that raises when called (a buggy user handler). -/
def raiserEntry : HandlerEntry Unit := ⟨fun _ => .raise, 1⟩

/-- A one-parameter handler entry that returns the non-empty reply `"B"`. -/
def answerBEntry : HandlerEntry Unit := ⟨fun _ => .ret (some "B") none, 1⟩

/-- A two-parameter handler entry that returns a falsy value and leaves the
session object as it found it. -/
def quietEntry : HandlerEntry Unit :=
  ⟨fun args =>
    match args with
    | [Arg.message _, Arg.session s] => .ret none s
    | _ => .ret none none, 2⟩

/-- A robot with two `text` handlers: the first raises, the second would
answer `"B"`; no session storage, `process_function_reply` is the
identity on the returned string. -/
def c1Robot : Robot Unit :=
  { handlers :=
      dictAppend (dictAppend (initHandlers Unit) "text" raiserEntry) "text" answerBEntry
    sessionStorage := none
    useEncryption := none
    procReply := fun s _ => s
    encryptMessage := fun s => s
    renderReply := fun s => s }

/-- A text message from sender `u1`. -/
def c1Msg : Message := ⟨"text", some "u1", "hello"⟩

/-- A robot used for C1's witness: a quiet `text` handler, then a raising
one. -/
def c1wRobot : Robot Unit :=
  { handlers :=
      dictAppend (dictAppend (initHandlers Unit) "text" quietEntry) "text" raiserEntry
    sessionStorage := none
    useEncryption := none
    procReply := fun s _ => s
    encryptMessage := fun s => s
    renderReply := fun s => s }

/-- A robot used for C3: a quiet `text` handler, an answering `text` handler
and a catch-all handler that would answer `"C"`. -/
def c3Robot : Robot Unit :=
  { handlers :=
      dictAppend
        (dictAppend (dictAppend (initHandlers Unit) "text" quietEntry) "text" answerBEntry)
        "all" answerCEntry
    sessionStorage := none
    useEncryption := none
    procReply := fun s _ => s
    encryptMessage := fun s => s
    renderReply := fun s => s }

/-- A wrapped filter handler used in witnesses: returns the forwarded match
object when it receives one as its third positional argument, otherwise the
non-empty reply `"x"`. -/
def pickThird : List (FilterArg Unit) → Option String := fun args =>
  match args with
  | [_, _, FilterArg.matchResult (some mo)] => some mo
  | _ => some "x"

/-- A concrete pattern: matches exactly the content `"hi"`, with `"hi"` as
the match object. -/
def c4Pat : String → Option MatchObj := fun s => if s = "hi" then some "hi" else none

/-- A text message with content `"hi"`. -/
def c4Msg : Message := ⟨"text", some "u", "hi"⟩

/-- A view robot whose signature check always fails and whose configured
error-page producer is the identity (`@robot.error_page` with
`lambda url: url`). -/
def c7Robot : ViewRobot :=
  ⟨fun _ _ _ _ => false, fun _ _ _ _ => "", fun s => s⟩

/-- A view robot whose signature check always succeeds and whose decrypter
returns its cipher argument tagged with `"dec:"`. -/
def c7OkRobot : ViewRobot :=
  ⟨fun _ _ _ _ => true, fun _ _ _ e => "dec:" ++ e, fun s => s⟩

/-- Concrete GET handshake query parameters. -/
def c7Query : GetQuery := ⟨"123", "n", "e", "sig"⟩

/-- A one-parameter callable that returns a falsy value. -/
def nopFunc : PyFunc Unit := ⟨fun _ => .ret none none, 1⟩

/-- A robot with one answering `text` handler whose `crypto` property was
never accessed, so `use_encryption` is unset. -/
def c9Robot : Robot Unit :=
  { handlers := dictAppend (initHandlers Unit) "text" answerBEntry
    sessionStorage := none
    useEncryption := none
    procReply := fun s _ => s
    encryptMessage := fun s => s
    renderReply := fun s => s }

/-! ### Shared lemmas about the dispatch loop -/

lemma get_reply_eq (r : Robot σ) (m : Message) :
    get_reply r m =
      ⟨(runLoop r.procReply m (hasWriteFlag r m) (get_handlers r.handlers m.type)
          (initialSession r m)).reply,
       readCount r m,
       (runLoop r.procReply m (hasWriteFlag r m) (get_handlers r.handlers m.type)
          (initialSession r m)).writes,
       (runLoop r.procReply m (hasWriteFlag r m) (get_handlers r.handlers m.type)
          (initialSession r m)).raised,
       (runLoop r.procReply m (hasWriteFlag r m) (get_handlers r.handlers m.type)
          (initialSession r m)).calls⟩ := by
  rcases hs : r.sessionStorage with _ | store <;>
    rcases hm : m.source with _ | src <;>
      simp [get_reply, hasWriteFlag, initialSession, readCount, hs, hm]

lemma runLoop_append (proc : String → Message → String) (m : Message) (hw : Bool)
    (rest : List (HandlerEntry σ)) :
    ∀ (pre : List (HandlerEntry σ)) (s : Option σ),
      (runLoop proc m hw pre s).reply = none →
      (runLoop proc m hw pre s).raised = false →
      runLoop proc m hw (pre ++ rest) s =
        ⟨(runLoop proc m hw rest (runLoop proc m hw pre s).finalSession).reply,
         (runLoop proc m hw pre s).writes ++
           (runLoop proc m hw rest (runLoop proc m hw pre s).finalSession).writes,
         (runLoop proc m hw rest (runLoop proc m hw pre s).finalSession).raised,
         pre.length +
           (runLoop proc m hw rest (runLoop proc m hw pre s).finalSession).calls,
         (runLoop proc m hw rest (runLoop proc m hw pre s).finalSession).finalSession⟩
  | [], s, _, _ => by simp [runLoop]
  | e :: pre, s, hrep, hrai => by
    cases hinv : invoke e m s with
    | raise => simp [runLoop, hinv] at hrai
    | ret rep s' =>
      cases rep with
      | some rv => simp [runLoop, hinv] at hrep
      | none =>
        have h1 : (runLoop proc m hw pre s').reply = none := by
          simpa [runLoop, hinv] using hrep
        have h2 : (runLoop proc m hw pre s').raised = false := by
          simpa [runLoop, hinv] using hrai
        have ih := runLoop_append proc m hw rest pre s' h1 h2
        simp [runLoop, hinv, ih]
        omega

lemma runLoop_writes_of_true (proc : String → Message → String) (m : Message) :
    ∀ (hs : List (HandlerEntry σ)) (s : Option σ),
      (runLoop proc m true hs s).writes.length +
          (cond (runLoop proc m true hs s).raised 1 0) =
        (runLoop proc m true hs s).calls
  | [], s => by simp [runLoop]
  | e :: hs, s => by
    cases hinv : invoke e m s with
    | raise => simp [runLoop, hinv]
    | ret rep s' =>
      cases rep with
      | some rv => simp [runLoop, hinv]
      | none =>
        have ih := runLoop_writes_of_true proc m hs s'
        simp [runLoop, hinv]
        omega

lemma runLoop_last_write (proc : String → Message → String) (m : Message) :
    ∀ (hs : List (HandlerEntry σ)) (s : Option σ), hs ≠ [] →
      (runLoop proc m true hs s).raised = false →
      (runLoop proc m true hs s).writes.getLast? =
        some (runLoop proc m true hs s).finalSession
  | [], _, hne, _ => absurd rfl hne
  | e :: hs, s, _, hrai => by
    cases hinv : invoke e m s with
    | raise => simp [runLoop, hinv] at hrai
    | ret rep s' =>
      cases rep with
      | some rv => simp [runLoop, hinv]
      | none =>
        cases hs with
        | nil => simp [runLoop, hinv]
        | cons e' hs' =>
          have h2 : (runLoop proc m true (e' :: hs') s').raised = false := by
            simpa [runLoop, hinv] using hrai
          have ih := runLoop_last_write proc m (e' :: hs') s' (by simp) h2
          have hne : (runLoop proc m true (e' :: hs') s').writes ≠ [] := by
            intro h
            rw [h] at ih
            simp at ih
          obtain ⟨w, ws, hws⟩ := List.exists_cons_of_ne_nil hne
          have hrl : runLoop proc m true (e :: e' :: hs') s =
              ⟨(runLoop proc m true (e' :: hs') s').reply,
               s' :: (runLoop proc m true (e' :: hs') s').writes,
               (runLoop proc m true (e' :: hs') s').raised,
               (runLoop proc m true (e' :: hs') s').calls + 1,
               (runLoop proc m true (e' :: hs') s').finalSession⟩ := by
            simp [runLoop, hinv]
          rw [hrl]
          rw [hws] at ih ⊢
          simpa [List.getLast?_cons_cons] using ih

/-! ### Claim theorems: exception handling in dispatch (C1) -/

/-- C1, counterexample. The claim says that when a handler raises, dispatch
continues with the remaining handlers; on `c1Robot` the first `text` handler
raises and the second would return `"B"`, yet `get_reply` invokes only one
handler and produces no reply - the remaining handler is never invoked. -/
theorem c1_counterexample :
    (get_reply c1Robot c1Msg).raised = true ∧
      (get_reply c1Robot c1Msg).calls = 1 ∧
      (get_reply c1Robot c1Msg).reply = none :=
  ⟨rfl, rfl, rfl⟩

/-- C1, amended. If a handler raises during dispatch, the exception is caught
by the `try`/`except` around the loop and logged, and `get_reply` returns no
reply; the handlers after the raising one are never invoked (the whole loop
is abandoned), but the exception does not propagate out of `get_reply`. -/
theorem c1_handler_exception_aborts_dispatch (σ : Type) (r : Robot σ) (m : Message)
    (pre : List (HandlerEntry σ)) (e : HandlerEntry σ) (post : List (HandlerEntry σ))
    (hseq : get_handlers r.handlers m.type = pre ++ e :: post)
    (hrep : (runLoop r.procReply m (hasWriteFlag r m) pre (initialSession r m)).reply = none)
    (hrai : (runLoop r.procReply m (hasWriteFlag r m) pre (initialSession r m)).raised = false)
    (hexn : invoke e m
      (runLoop r.procReply m (hasWriteFlag r m) pre (initialSession r m)).finalSession =
      .raise) :
    (get_reply r m).reply = none ∧ (get_reply r m).raised = true ∧
      (get_reply r m).calls = pre.length + 1 := by
  have happ := runLoop_append r.procReply m (hasWriteFlag r m) (e :: post) pre
    (initialSession r m) hrep hrai
  have htail : runLoop r.procReply m (hasWriteFlag r m) (e :: post)
      (runLoop r.procReply m (hasWriteFlag r m) pre (initialSession r m)).finalSession =
      ⟨none, [], true, 1,
        (runLoop r.procReply m (hasWriteFlag r m) pre (initialSession r m)).finalSession⟩ := by
    simp [runLoop, hexn]
  rw [get_reply_eq, hseq]
  simp [happ, htail]

/-- C1, witness for the amended theorem at a concrete robot: one quiet
handler, then a raising handler. -/
theorem c1_witness :
    (get_reply c1wRobot c1Msg).reply = none ∧
      (get_reply c1wRobot c1Msg).raised = true ∧
      (get_reply c1wRobot c1Msg).calls = [quietEntry].length + 1 :=
  c1_handler_exception_aborts_dispatch Unit c1wRobot c1Msg [quietEntry] raiserEntry []
    rfl rfl rfl rfl

/-! ### Claim theorems: session read/write discipline (C2) -/

/-- C2, counterexample. The claim says the session is written back exactly
once after dispatch even when every handler returns empty, including an
empty handler list; on `c2RobotTwo` (two empty-returning handlers) the
storage is written twice, and on `c2RobotZero` (no handlers) it is written
zero times, although it was read. -/
theorem c2_counterexample :
    (get_reply c2RobotTwo c2Msg).writes.length = 2 ∧
      (get_reply c2RobotZero c2Msg).writes.length = 0 ∧
      (get_reply c2RobotZero c2Msg).reads = 1 :=
  ⟨rfl, rfl, rfl⟩

/-- C2, amended. For a dispatched message whose source has configured
session storage and a truthy sender id, the session is read from storage
exactly once before any handler runs, and written back once after **each**
handler invocation that returns (so the number of writes equals the number
of completed handler calls - zero when the handler list is empty, not one);
when at least one handler ran and none raised, the last write stores the
session state after the last executed handler, so its mutation is
preserved. -/
theorem c2_session_rw_discipline (σ : Type) (r : Robot σ) (m : Message)
    (store : String → σ) (src : String)
    (hs : r.sessionStorage = some store) (hm : m.source = some src)
    (hne : src ≠ "") :
    (get_reply r m).reads = 1 ∧
      (get_reply r m).writes.length + cond (get_reply r m).raised 1 0 =
        (get_reply r m).calls ∧
      (get_handlers r.handlers m.type = [] → (get_reply r m).writes = []) ∧
      (get_handlers r.handlers m.type ≠ [] → (get_reply r m).raised = false →
        (get_reply r m).writes.getLast? =
          some (runLoop r.procReply m true (get_handlers r.handlers m.type)
            (some (store src))).finalSession) := by
  have hw : hasWriteFlag r m = true := by
    have hie : src.isEmpty = false := by
      cases h : src.isEmpty
      · rfl
      · exact absurd ((String.isEmpty_iff src).mp h) hne
    simp [hasWriteFlag, hs, hm, hie]
  have hi : initialSession r m = some (store src) := by
    simp [initialSession, hs, hm]
  rw [get_reply_eq]
  refine ⟨by simp [readCount, hs, hm], ?_, ?_, ?_⟩
  · simp only [hw, hi]
    exact runLoop_writes_of_true r.procReply m (get_handlers r.handlers m.type)
      (some (store src))
  · intro h
    simp [h, runLoop]
  · intro hne2 hrai
    simp only [hw, hi] at hrai ⊢
    exact runLoop_last_write r.procReply m (get_handlers r.handlers m.type)
      (some (store src)) hne2 hrai

/-- C2, witness for the amended theorem on `c2RobotTwo`: one read, a write
per completed handler call, and the last write carries the twice-incremented
session. -/
theorem c2_witness :
    (get_reply c2RobotTwo c2Msg).reads = 1 ∧
      (get_reply c2RobotTwo c2Msg).writes.length +
          cond (get_reply c2RobotTwo c2Msg).raised 1 0 =
        (get_reply c2RobotTwo c2Msg).calls ∧
      (get_handlers c2RobotTwo.handlers c2Msg.type = [] →
        (get_reply c2RobotTwo c2Msg).writes = []) ∧
      (get_handlers c2RobotTwo.handlers c2Msg.type ≠ [] →
        (get_reply c2RobotTwo c2Msg).raised = false →
        (get_reply c2RobotTwo c2Msg).writes.getLast? =
          some (runLoop c2RobotTwo.procReply c2Msg true
            (get_handlers c2RobotTwo.handlers c2Msg.type) (some 0)).finalSession) :=
  c2_session_rw_discipline Nat c2RobotTwo c2Msg (fun _ => 0) "u1" rfl rfl
    (by decide)

/-! ### Claim theorems: handler sequence and first-non-empty dispatch (C3) -/

/-- C3. The effective handler sequence of a dispatch is the type-specific
list followed by the catch-all list (both in registration order, as stored);
every handler call passes the first `args_count` elements of
`[message, session]`; and when the handlers before `e` all completed with an
empty return and `e` returns a non-empty value, `get_reply` returns the
processed reply of `e` and invokes exactly `pre.length + 1` handlers - no
handler after `e` is ever invoked. -/
theorem c3_first_non_empty_wins (σ : Type) (r : Robot σ) (m : Message)
    (pre : List (HandlerEntry σ)) (e : HandlerEntry σ) (post : List (HandlerEntry σ))
    (rv : String) (s' : Option σ)
    (hseq : (dictGet r.handlers m.type).getD [] ++ (dictGet r.handlers "all").getD [] =
      pre ++ e :: post)
    (hrep : (runLoop r.procReply m (hasWriteFlag r m) pre (initialSession r m)).reply = none)
    (hrai : (runLoop r.procReply m (hasWriteFlag r m) pre (initialSession r m)).raised = false)
    (hret : invoke e m
      (runLoop r.procReply m (hasWriteFlag r m) pre (initialSession r m)).finalSession =
      .ret (some rv) s') :
    get_handlers r.handlers m.type = pre ++ e :: post ∧
      (∀ (e2 : HandlerEntry σ) (m2 : Message) (s2 : Option σ),
        invoke e2 m2 s2 = e2.run (([Arg.message m2, Arg.session s2]).take e2.argsCount)) ∧
      (get_reply r m).reply = some (r.procReply rv m) ∧
      (get_reply r m).calls = pre.length + 1 := by
  have hseq' : get_handlers r.handlers m.type = pre ++ e :: post := hseq
  have happ := runLoop_append r.procReply m (hasWriteFlag r m) (e :: post) pre
    (initialSession r m) hrep hrai
  have htail : runLoop r.procReply m (hasWriteFlag r m) (e :: post)
      (runLoop r.procReply m (hasWriteFlag r m) pre (initialSession r m)).finalSession =
      ⟨some (r.procReply rv m), if hasWriteFlag r m then [s'] else [], false, 1, s'⟩ := by
    simp [runLoop, hret]
  refine ⟨hseq', fun _ _ _ => rfl, ?_, ?_⟩ <;>
    rw [get_reply_eq] <;> simp [hseq', happ, htail]

/-- C3, witness: on `c3Robot` (a quiet `text` handler, then one answering
`"B"`, then a catch-all answering `"C"`), dispatching a `text` message
returns `"B"` after exactly two handler calls - the catch-all never runs. -/
theorem c3_witness :
    get_handlers c3Robot.handlers c1Msg.type = [quietEntry] ++ answerBEntry :: [answerCEntry] ∧
      (∀ (e2 : HandlerEntry Unit) (m2 : Message) (s2 : Option Unit),
        invoke e2 m2 s2 = e2.run (([Arg.message m2, Arg.session s2]).take e2.argsCount)) ∧
      (get_reply c3Robot c1Msg).reply = some (c3Robot.procReply "B" c1Msg) ∧
      (get_reply c3Robot c1Msg).calls = [quietEntry].length + 1 :=
  c3_first_non_empty_wins Unit c3Robot c1Msg [quietEntry] answerBEntry [answerCEntry]
    "B" none rfl rfl rfl rfl

/-! ### Claim theorems: filter rule matching (C4) -/

/-- C4. For a filter registration on a text message: an exact-string rule
fires iff the content equals the rule string after `to_text` normalization
(in particular never for different content such as a proper substring); a
pattern rule fires iff the pattern matches the content; on a pattern match
the match object is forwarded as the third positional argument to a handler
declaring three parameters and omitted for lower arities; when the rule does
not match, the adapter returns empty independently of the wrapped handler -
the handler is never invoked. -/
theorem c4_filter_matching (σ : Type) :
    (∀ (toText : String → String) (s : String) (m : Message),
        ruleCheck toText (Rule.str s) m ≠ CheckResult.falsy ↔ m.content = toText s) ∧
    (∀ (toText : String → String) (p : String → Option MatchObj) (m : Message),
        ruleCheck toText (Rule.regex p) m ≠ CheckResult.falsy ↔ (p m.content).isSome) ∧
    (∀ (toText : String → String) (s : String) (m : Message)
        (func : List (FilterArg σ) → Option String) (argc : Nat) (sess : Option σ),
        m.content = toText s →
        filterF (ruleCheck toText (Rule.str s)) func argc m sess =
          func (([FilterArg.message m, FilterArg.session sess,
            FilterArg.matchResult none]).take argc)) ∧
    (∀ (toText : String → String) (p : String → Option MatchObj) (mo : MatchObj)
        (m : Message) (func : List (FilterArg σ) → Option String) (sess : Option σ),
        p m.content = some mo →
        filterF (ruleCheck toText (Rule.regex p)) func 3 m sess =
          func [FilterArg.message m, FilterArg.session sess,
            FilterArg.matchResult (some mo)]) ∧
    (∀ (toText : String → String) (p : String → Option MatchObj) (mo : MatchObj)
        (m : Message) (func : List (FilterArg σ) → Option String) (argc : Nat)
        (sess : Option σ),
        argc ≤ 2 → p m.content = some mo →
        filterF (ruleCheck toText (Rule.regex p)) func argc m sess =
          func (([FilterArg.message m, FilterArg.session sess]).take argc)) ∧
    (∀ (toText : String → String) (r : Rule) (m : Message),
        ruleCheck toText r m = CheckResult.falsy →
        ∀ (func : List (FilterArg σ) → Option String) (argc : Nat) (sess : Option σ),
          filterF (ruleCheck toText r) func argc m sess = none) := by
  refine ⟨?_, ?_, ?_, ?_, ?_, ?_⟩
  · intro toText s m
    by_cases h : m.content = toText s <;> simp [ruleCheck, checkContentStr, h]
  · intro toText p m
    cases h : p m.content <;> simp [ruleCheck, checkContentRegex, h]
  · intro toText s m func argc sess h
    simp [filterF, ruleCheck, checkContentStr, h]
  · intro toText p mo m func sess h
    simp [filterF, ruleCheck, checkContentRegex, h]
  · intro toText p mo m func argc sess hargc h
    have htake : (([FilterArg.message m, FilterArg.session sess,
          FilterArg.matchResult (some mo)] : List (FilterArg σ)).take argc) =
        (([FilterArg.message m, FilterArg.session sess] : List (FilterArg σ)).take argc) := by
      interval_cases argc <;> rfl
    simp [filterF, ruleCheck, checkContentRegex, h, htake]
  · intro toText r m h func argc sess
    simp [filterF, h]

/-- C4, witness: the concrete pattern `c4Pat` on the message `"hi"` fires and
forwards the match object `"hi"` to the three-parameter `pickThird`;
the exact rule `"hi"` fires with `None` as third value; the exact rule `"h"`
(a proper substring) does not fire and the adapter returns empty. -/
theorem c4_witness :
    (ruleCheck id (Rule.str "hi") c4Msg ≠ CheckResult.falsy ↔ c4Msg.content = id "hi") ∧
      (ruleCheck id (Rule.regex c4Pat) c4Msg ≠ CheckResult.falsy ↔
        (c4Pat c4Msg.content).isSome) ∧
      filterF (ruleCheck id (Rule.str "hi")) pickThird 3 c4Msg none =
        pickThird [FilterArg.message c4Msg, FilterArg.session none,
          FilterArg.matchResult none] ∧
      filterF (ruleCheck id (Rule.regex c4Pat)) pickThird 3 c4Msg none =
        pickThird [FilterArg.message c4Msg, FilterArg.session none,
          FilterArg.matchResult (some "hi")] ∧
      filterF (ruleCheck id (Rule.regex c4Pat)) pickThird 2 c4Msg none =
        pickThird (([FilterArg.message c4Msg, FilterArg.session none]).take 2) ∧
      filterF (ruleCheck id (Rule.str "h")) pickThird 2 c4Msg none = none :=
  ⟨(c4_filter_matching Unit).1 id "hi" c4Msg,
   (c4_filter_matching Unit).2.1 id c4Pat c4Msg,
   by
     have h := (c4_filter_matching Unit).2.2.1 id "hi" c4Msg pickThird 3 none rfl
     simpa using h,
   (c4_filter_matching Unit).2.2.2.1 id c4Pat "hi" c4Msg pickThird none rfl,
   (c4_filter_matching Unit).2.2.2.2.1 id c4Pat "hi" c4Msg pickThird 2 none
     (by decide) rfl,
   (c4_filter_matching Unit).2.2.2.2.2 id (Rule.str "h") c4Msg rfl pickThird 2 none⟩

/-! ### Claim theorems: multi-rule filter registration (C5) -/

lemma add_filter_eq_foldlM (σ : Type) (toText : String → String) (f : FilterFunc σ) :
    ∀ (rules : List Rule) (d : HandlerDict σ), rules ≠ [] →
      add_filter toText f rules d =
        List.foldlM (fun d r => add_filter toText f [r] d) d rules
  | [], _, h => absurd rfl h
  | [r], d, _ => by
    show addFilterSingle toText f r d = _
    cases hx : addFilterSingle toText f r d <;>
      simp [List.foldlM, add_filter, hx]
  | r :: r2 :: rest, d, _ => by
    simp only [add_filter, List.foldlM]
    cases hx : addFilterSingle toText f r d with
    | error e => rfl
    | ok d' => exact add_filter_eq_foldlM σ toText f (r2 :: rest) d' (by simp)

/-- C5. Registering a rule list with more than one element is equivalent to
registering each rule independently, in order: `add_filter(func, rules)`
leaves the handler registry in exactly the state produced by folding the
single-rule `add_filter(func, [r])` over the list. -/
theorem c5_multi_rule_expansion (σ : Type) (toText : String → String)
    (f : FilterFunc σ) (rules : List Rule) (d : HandlerDict σ)
    (h : 1 < rules.length) :
    add_filter toText f rules d =
      List.foldlM (fun d r => add_filter toText f [r] d) d rules :=
  add_filter_eq_foldlM σ toText f rules d (by
    intro he
    rw [he] at h
    simp at h)

/-- C5, witness at a two-element rule list over the freshly constructed
registry. -/
theorem c5_witness :
    add_filter id ⟨pickThird, 2⟩ [Rule.str "a", Rule.str "b"] (initHandlers Unit) =
      List.foldlM (fun d r => add_filter id ⟨pickThird, 2⟩ [r] d)
        (initHandlers Unit) [Rule.str "a", Rule.str "b"] :=
  c5_multi_rule_expansion Unit id ⟨pickThird, 2⟩ [Rule.str "a", Rule.str "b"]
    (initHandlers Unit) (by decide)

/-! ### Claim theorems: picture-event list normalization (C6) -/

/-- C6. For a well-formed `SendPicsInfo` payload, the constructed `pic_list`
is a uniform list of records exposing `pic_md5_sum`: a one-element list when
the reported count is 1 (the single nested item), and one element per nested
item when the count is greater than 1. -/
theorem c6_pic_list_uniform (info : SendPicsInfo) :
    (info.count = 1 → ∀ md5, info.item = PicListItem.one md5 →
      basePicEventPicList info = some [⟨md5⟩]) ∧
    (1 < info.count → ∀ items, info.item = PicListItem.many items →
      basePicEventPicList info = some (items.map fun md5 => ⟨md5⟩)) := by
  constructor
  · intro h1 md5 hitem
    simp [basePicEventPicList, h1, hitem]
  · intro h2 items hitem
    simp [basePicEventPicList, h2, hitem]

/-- C6, witness: a count-1 payload yields a one-element list, a count-2
payload with two nested items yields one record per item. -/
theorem c6_witness :
    basePicEventPicList ⟨1, PicListItem.one "m1"⟩ = some [⟨"m1"⟩] ∧
      basePicEventPicList ⟨2, PicListItem.many ["a", "b"]⟩ =
        some (["a", "b"].map fun md5 => (⟨md5⟩ : PicRecord)) :=
  ⟨(c6_pic_list_uniform ⟨1, PicListItem.one "m1"⟩).1 rfl "m1" rfl,
   (c6_pic_list_uniform ⟨2, PicListItem.many ["a", "b"]⟩).2 (by decide)
     ["a", "b"] rfl⟩

/-! ### Claim theorems: GET handshake view (C7) -/

/-- C7, counterexample. The claim says the failure response body is the
error-page producer applied to the request URL; with the identity producer
and the URL `http://h/?a=1&b=2`, the code applies the producer to the
HTML-escaped URL, so the body differs from the producer applied to the URL
itself. -/
theorem c7_counterexample :
    werobotViewGet c7Robot id c7Query "http://h/?a=1&b=2" =
      ViewResult.httpResponse 403 "http://h/?a=1&amp;b=2" ∧
      c7Robot.makeErrorPage "http://h/?a=1&b=2" = "http://h/?a=1&b=2" ∧
      ("http://h/?a=1&amp;b=2" : String) ≠ "http://h/?a=1&b=2" :=
  ⟨rfl, rfl, by decide⟩

/-- C7, amended. For a GET handshake: if signature verification (over the
URL-unquoted `echostr`) fails, the response is the configurable error-page
producer applied to the **HTML-escaped** request URL with a 403 status; if
verification succeeds, the response body is the decryption of the
URL-unquoted `echostr`. -/
theorem c7_get_handshake (r : ViewRobot) (unquote : String → String)
    (q : GetQuery) (url : String) :
    (r.checkSig q.timestamp q.nonce (unquote q.echostr) q.msgSignature = false →
      werobotViewGet r unquote q url =
        ViewResult.httpResponse 403 (r.makeErrorPage (htmlEscape url))) ∧
    (r.checkSig q.timestamp q.nonce (unquote q.echostr) q.msgSignature = true →
      werobotViewGet r unquote q url =
        ViewResult.plain (r.decryptMessage q.timestamp q.nonce q.msgSignature
          (unquote q.echostr))) := by
  constructor <;> intro h <;> simp [werobotViewGet, h]

/-- C7, witness: the failing robot produces the 403 error page, the
succeeding robot returns the decrypted echostr. -/
theorem c7_witness :
    werobotViewGet c7Robot id c7Query "u" =
      ViewResult.httpResponse 403 (c7Robot.makeErrorPage (htmlEscape "u")) ∧
      werobotViewGet c7OkRobot id c7Query "u" =
        ViewResult.plain (c7OkRobot.decryptMessage c7Query.timestamp
          c7Query.nonce c7Query.msgSignature (id c7Query.echostr)) :=
  ⟨(c7_get_handshake c7Robot id c7Query "u").1 rfl,
   (c7_get_handshake c7OkRobot id c7Query "u").2 rfl⟩

/-! ### Claim theorems: fixed registry keys (C8) and registration frame (C10) -/

lemma dictAppend_cons (p : String × List (HandlerEntry σ)) (d : HandlerDict σ)
    (k : String) (e : HandlerEntry σ) :
    dictAppend (p :: d) k e =
      (if p.1 == k then (p.1, p.2 ++ [e]) else p) :: dictAppend d k e := rfl

lemma dictGet_cons (q : String × List (HandlerEntry σ)) (d : HandlerDict σ)
    (t : String) :
    dictGet (q :: d) t = if q.1 == t then some q.2 else dictGet d t := by
  by_cases h : (q.1 == t) = true <;>
    simp [dictGet, List.find?_cons_of_pos, List.find?_cons_of_neg, h]

lemma dictKeys_dictAppend (d : HandlerDict σ) (k : String) (e : HandlerEntry σ) :
    dictKeys (dictAppend d k e) = dictKeys d := by
  induction d with
  | nil => rfl
  | cons p d ih =>
    rw [dictAppend_cons]
    simp only [dictKeys, List.map_cons] at ih ⊢
    cases hp : (p.1 == k) <;> simp [hp, ih]

lemma dictGet_eq_none_of_not_mem (d : HandlerDict σ) (t : String)
    (h : t ∉ dictKeys d) : dictGet d t = none := by
  simp only [dictGet, Option.map_eq_none', List.find?_eq_none]
  intro x hx
  simp only [beq_iff_eq]
  intro heq
  exact h (heq ▸ List.mem_map_of_mem (fun p => p.1) hx)

/-- C8. The type keys of the handler registry are fixed at construction:
the freshly built `_handlers` dict has exactly `message_types ++ ["all"]`
as keys; `add_handler` never changes the key set; and registering under any
type that is neither in `message_types` nor `"all"` raises `KeyError`. -/
theorem c8_fixed_type_keys (σ : Type) :
    dictKeys (initHandlers σ) = message_types ++ ["all"] ∧
    (∀ (d : HandlerDict σ) (f : PyFunc σ) (t : String) (d' : HandlerDict σ),
      add_handler f t d = .ok d' → dictKeys d' = dictKeys d) ∧
    (∀ (d : HandlerDict σ) (f : PyFunc σ) (t : String),
      dictKeys d = message_types ++ ["all"] → t ∉ message_types → t ≠ "all" →
      add_handler f t d = .error .keyError) := by
  refine ⟨rfl, ?_, ?_⟩
  · intro d f t d' h
    cases hg : dictGet d t with
    | none => simp [add_handler, hg] at h
    | some l =>
      simp only [add_handler, hg, Except.ok.injEq] at h
      rw [← h]
      exact dictKeys_dictAppend d t _
  · intro d f t hk hmt hall
    have hnm : t ∉ dictKeys d := by
      rw [hk]
      simp [hmt, hall]
    simp [add_handler, dictGet_eq_none_of_not_mem d t hnm]

/-- C8, witness: registering under the unknown type `"nosuch"` on a fresh
registry raises `KeyError`. -/
theorem c8_witness :
    dictKeys (initHandlers Unit) = message_types ++ ["all"] ∧
      add_handler nopFunc "nosuch" (initHandlers Unit) = .error .keyError :=
  ⟨(c8_fixed_type_keys Unit).1,
   (c8_fixed_type_keys Unit).2.2 (initHandlers Unit) nopFunc "nosuch"
     (c8_fixed_type_keys Unit).1 (by decide) (by decide)⟩

lemma dictGet_dictAppend_self (e : HandlerEntry σ) :
    ∀ (d : HandlerDict σ) (k : String) (l : List (HandlerEntry σ)),
      dictGet d k = some l → dictGet (dictAppend d k e) k = some (l ++ [e])
  | [], _, _, h => by simp [dictGet] at h
  | p :: d, k, l, h => by
    rw [dictGet_cons] at h
    rw [dictAppend_cons, dictGet_cons]
    cases hp : (p.1 == k) with
    | true =>
      simp only [hp, if_true] at h
      have hpl : p.2 = l := by injection h
      simp [hp, hpl]
    | false =>
      simp only [hp, Bool.false_eq_true, if_false] at h
      have ih := dictGet_dictAppend_self e d k l h
      simp [hp, ih]

lemma dictGet_dictAppend_ne (e : HandlerEntry σ) :
    ∀ (d : HandlerDict σ) (k t' : String), t' ≠ k →
      dictGet (dictAppend d k e) t' = dictGet d t'
  | [], _, _, _ => rfl
  | p :: d, k, t', hne => by
    rw [dictAppend_cons, dictGet_cons, dictGet_cons]
    have ih := dictGet_dictAppend_ne e d k t' hne
    cases hp : (p.1 == k) with
    | true =>
      have hk : p.1 = k := by simpa using hp
      have hpt : (p.1 == t') = false := by
        simp only [beq_eq_false_iff_ne, hk]
        exact Ne.symm hne
      simp [hp, hpt, ih]
    | false =>
      cases hpt : (p.1 == t') <;> simp [hp, hpt, ih]

/-- C10. For a callable and an existing type key, `add_handler` succeeds and
appends exactly one `(func, arity)` entry to that type's list, leaving the
list of every other key - including the catch-all `"all"` list when the type
differs from `"all"` - unchanged. -/
theorem c10_add_handler_frame (σ : Type) (d : HandlerDict σ) (f : PyFunc σ)
    (t : String) (l : List (HandlerEntry σ)) (h : dictGet d t = some l) :
    add_handler f t d = .ok (dictAppend d t ⟨f.run, f.paramCount⟩) ∧
      dictGet (dictAppend d t ⟨f.run, f.paramCount⟩) t =
        some (l ++ [⟨f.run, f.paramCount⟩]) ∧
      ∀ t', t' ≠ t →
        dictGet (dictAppend d t ⟨f.run, f.paramCount⟩) t' = dictGet d t' :=
  ⟨by simp [add_handler, h],
   dictGet_dictAppend_self _ d t l h,
   fun t' hne => dictGet_dictAppend_ne _ d t t' hne⟩

/-- C10, witness: registering under `"text"` on a fresh registry appends one
entry to the `text` list and leaves the `"all"` list unchanged. -/
theorem c10_witness :
    add_handler nopFunc "text" (initHandlers Unit) =
      .ok (dictAppend (initHandlers Unit) "text" ⟨nopFunc.run, nopFunc.paramCount⟩) ∧
      dictGet (dictAppend (initHandlers Unit) "text"
          ⟨nopFunc.run, nopFunc.paramCount⟩) "text" =
        some ([] ++ [⟨nopFunc.run, nopFunc.paramCount⟩]) ∧
      dictGet (dictAppend (initHandlers Unit) "text"
          ⟨nopFunc.run, nopFunc.paramCount⟩) "all" =
        dictGet (initHandlers Unit) "all" :=
  ⟨(c10_add_handler_frame Unit (initHandlers Unit) nopFunc "text" [] rfl).1,
   (c10_add_handler_frame Unit (initHandlers Unit) nopFunc "text" [] rfl).2.1,
   (c10_add_handler_frame Unit (initHandlers Unit) nopFunc "text" [] rfl).2.2
     "all" (by decide)⟩

/-! ### Claim theorems: unset `use_encryption` (C9) -/

/-- C9. `get_encrypted_reply` reads `self.use_encryption`, which is assigned
only as a side effect of the first access to the `crypto` property; when
dispatch produced a non-empty reply and the attribute was never assigned,
the read raises `AttributeError` instead of returning a rendered reply. -/
theorem c9_unset_use_encryption (σ : Type) (r : Robot σ) (m : Message)
    (rep : String) (hrep : (get_reply r m).reply = some rep)
    (henc : r.useEncryption = none) :
    get_encrypted_reply r m = .error .attributeError := by
  simp [get_encrypted_reply, hrep, henc]

/-- C9, witness: on a robot with an answering `text` handler and `crypto`
never accessed, `get_encrypted_reply` raises `AttributeError`. -/
theorem c9_witness :
    get_encrypted_reply c9Robot c1Msg = .error .attributeError :=
  c9_unset_use_encryption Unit c9Robot c1Msg "B" rfl rfl

end WorkWeRoBot
